import Mathlib

/-!
Verification of the two scripts in this repository against their
natural-language specification.

* `src/tools/parse_onnx.py` — a command-line utility that loads an ONNX
  model file and dumps its computation-graph node list as a JSON document.
  It is embedded below as the pure function `ParseOnnx.main`, parameterised
  by the argument vector (`sys.argv`, script name included) and by a
  filesystem oracle standing for `onnx.load` (which either returns the
  parsed model or raises).

* `src/tools/create_and_save_model.py` — a build-train-save demo script.
  Its physical lines are embedded (indentation structure only) as
  `CreateAndSaveModel.lines`, together with a model of CPython's
  block-structure (INDENT/DEDENT) check, which the whole module must pass
  before any statement executes.
-/

namespace ParseOnnx

/-- One node of an ONNX computation graph (`model.graph.node[i]`):
the fields the script reads are `name` and `op_type`. -/
structure OnnxNode where
  name : String
  op_type : String
deriving DecidableEq, Repr

/-- The ONNX graph (`model.graph`): the fields the script reads are
`name` and the node list `node`, in graph (serialized) order. -/
structure OnnxGraph where
  name : String
  node : List OnnxNode
deriving DecidableEq, Repr

/-- The ONNX model (`model`): the script reads `model.graph` and
`model.domain`. -/
structure OnnxModel where
  graph : OnnxGraph
  domain : String
deriving DecidableEq, Repr

/-- JSON values, as far as the script's output needs them: `json.dumps`
renders a Python dict as an object with its keys in insertion order,
`None` as `null`, strings as strings and lists as arrays. -/
inductive Json where
  | null : Json
  | str : String → Json
  | obj : List (String × Json) → Json
  | arr : List Json → Json
deriving Repr

/-- Field lookup in a JSON object (first binding of the key). -/
def Json.lookup : Json → String → Option Json
  | .obj fields, key => List.lookup key fields
  | _, _ => none

/-- Failure of `onnx.load` (e.g. `FileNotFoundError` on a missing path);
uncaught, it terminates the Python process. -/
inductive LoadError where
  | fileNotFound : String → LoadError
  | parseError : String → LoadError
deriving DecidableEq, Repr

/-- The filesystem oracle standing for `onnx.load model_path`. -/
def Fs : Type := String → Except LoadError OnnxModel

/-- One line printed by the script: a plain string printed by `print`,
or the JSON document printed by `print(json.dumps(output, indent=4))`. -/
inductive Printed where
  | line : String → Printed
  | jsonDoc : Json → Printed
deriving Repr

/-- How the process ends: a normal exit with a status code, or an
uncaught exception propagating out of `main`. -/
inductive Outcome where
  | exited : Nat → Outcome
  | raised : LoadError → Outcome
deriving DecidableEq, Repr

/-- The observable behaviour of one invocation of the script:
what it printed to stdout and stderr, which paths it opened, and
how the process ended. -/
structure Run where
  stdout : List Printed
  stderr : List Printed
  fileAccesses : List String
  outcome : Outcome

/-- The usage string: `print("Usage: python parse_onnx.py <model_path>")`. -/
def usageMessage : String := "Usage: python parse_onnx.py <model_path>"

/-- The per-node record built in the loop body of `main`:
`{"name": node.name, "type": node.op_type, "parameters": {}, "weights": None}`. -/
def layerJson (node : OnnxNode) : Json :=
  .obj [("name", .str node.name),
        ("type", .str node.op_type),
        ("parameters", .obj []),
        ("weights", .null)]

/-- The `output` dict of `main` after the loop has appended one layer
record per graph node:
`{"name": model.graph.name, "type": "ONNX", "architecture": model.domain, "layers": [...]}`. -/
def outputJson (model : OnnxModel) : Json :=
  .obj [("name", .str model.graph.name),
        ("type", .str "ONNX"),
        ("architecture", .str model.domain),
        ("layers", .arr (model.graph.node.map layerJson))]

/-- The `main` function of `src/tools/parse_onnx.py`:
if `len(sys.argv) < 2`, print the usage line and return (the script then
exits normally with status 0); otherwise take `model_path = sys.argv[1]`,
call `onnx.load(model_path)` — an exception from it propagates uncaught —
and on success print `json.dumps(output, indent=4)`. -/
def main (argv : List String) (fs : Fs) : Run :=
  if argv.length < 2 then
    { stdout := [.line usageMessage]
      stderr := []
      fileAccesses := []
      outcome := .exited 0 }
  else
    let model_path := argv.getD 1 ""
    match fs model_path with
    | .error e =>
        { stdout := []
          stderr := []
          fileAccesses := [model_path]
          outcome := .raised e }
    | .ok model =>
        { stdout := [.jsonDoc (outputJson model)]
          stderr := []
          fileAccesses := [model_path]
          outcome := .exited 0 }

/-- A one-node model used for concrete evaluations. -/
def cexModel : OnnxModel :=
  { graph := { name := "g", node := [{ name := "n0", op_type := "Relu" }] }
    domain := "" }

/-- An oracle for a filesystem on which every path is missing. -/
def fsMissing : Fs := fun p => .error (.fileNotFound p)

/-- An oracle for a filesystem holding `cexModel` under `"model.onnx"`. -/
def fsCex : Fs := fun p =>
  if p = "model.onnx" then .ok cexModel else .error (.fileNotFound p)

end ParseOnnx

namespace CreateAndSaveModel

/-- One physical line of a Python source file, as CPython's tokenizer
sees it for block structure: `skip` is a line that produces no
INDENT/DEDENT decision (blank, comment-only, or a continuation of the
previous logical line inside open brackets); `code` starts a new logical
line, carries its leading-space count, and records whether the logical
line it starts ends with a colon (opening a block). -/
inductive PyLine where
  | skip : PyLine
  | code : Nat → Bool → PyLine
deriving DecidableEq, Repr

/-- CPython's block-structure check over the physical lines, run during
tokenization of the whole module before any statement executes.
State: the indentation stack (innermost first, bottom `0`) and whether
the previous logical line opened a block (so an indent is required).
Returns the number of the first offending line (`IndentationError`), or
`none` if the module tokenizes. -/
def indentScan : List PyLine → List Nat → Bool → Nat → Option Nat
  | [], _, _, _ => none
  | .skip :: rest, stack, expect, lineNo =>
      indentScan rest stack expect (lineNo + 1)
  | .code ind opens :: rest, stack, expect, lineNo =>
      let top := stack.headD 0
      if expect then
        if top < ind then indentScan rest (ind :: stack) opens (lineNo + 1)
        else some lineNo
      else if top < ind then some lineNo
      else
        let stack2 := stack.dropWhile (fun x => ind < x)
        if stack2.headD 0 = ind then indentScan rest stack2 opens (lineNo + 1)
        else some lineNo

/-- First line of a module at which tokenization fails with an
`IndentationError`, if any. -/
def firstIndentError (ls : List PyLine) : Option Nat :=
  indentScan ls [0] false 1

/-- The 60 physical lines of `src/tools/create_and_save_model.py`,
transcribed for block structure. Lines 3, 11, 14, 17, 22, 27, 30, 36,
46, 51 and 60 are blank; lines 4, 12, 15, 18, 23, 28, 31–32, 37, 47,
52–53 and 56–57 are comment-only; lines 7–9 continue the bracketed
`tf.keras.Sequential([` call begun on line 6. Line 5
(`def create_simple_model():`), line 39 (`for root, dirs, files in ...:`)
and line 44 (`for f in files:`) end with a colon. Every other code line
starts at column 0, except line 54
(` dummy_input = np.random.rand(1, 5).astype(np.float32)`), which starts
with one stray leading space. -/
def lines : List PyLine :=
  [ .code 0 false   -- 1  import tensorflow as tf
  , .code 0 false   -- 2  import os
  , .skip           -- 3
  , .skip           -- 4  comment
  , .code 0 true    -- 5  def create_simple_model():
  , .code 4 false   -- 6      model = tf.keras.Sequential([
  , .skip           -- 7  (continuation)
  , .skip           -- 8  (continuation)
  , .skip           -- 9  (continuation)
  , .code 4 false   -- 10     return model
  , .skip           -- 11
  , .skip           -- 12 comment
  , .code 0 false   -- 13 model = create_simple_model()
  , .skip           -- 14
  , .skip           -- 15 comment
  , .code 0 false   -- 16 model.compile(...)
  , .skip           -- 17
  , .skip           -- 18 comment
  , .code 0 false   -- 19 import numpy as np
  , .code 0 false   -- 20 x_train = ...
  , .code 0 false   -- 21 y_train = ...
  , .skip           -- 22
  , .skip           -- 23 comment
  , .code 0 false   -- 24 print("Training the model...")
  , .code 0 false   -- 25 model.fit(x_train, y_train, epochs=5, verbose=0)
  , .code 0 false   -- 26 print("Model training complete.")
  , .skip           -- 27
  , .skip           -- 28 comment
  , .code 0 false   -- 29 model_save_path = "./simple_tf_model"
  , .skip           -- 30
  , .skip           -- 31 comment
  , .skip           -- 32 comment
  , .code 0 false   -- 33 print(f"Saving the model to: ...")
  , .code 0 false   -- 34 tf.saved_model.save(model, model_save_path)
  , .code 0 false   -- 35 print("Model saved successfully.")
  , .skip           -- 36
  , .skip           -- 37 comment
  , .code 0 false   -- 38 print(f"Contents of ...")
  , .code 0 true    -- 39 for root, dirs, files in os.walk(model_save_path):
  , .code 4 false   -- 40     level = ...
  , .code 4 false   -- 41     indent = ...
  , .code 4 false   -- 42     print(...)
  , .code 4 false   -- 43     subindent = ...
  , .code 4 true    -- 44     for f in files:
  , .code 8 false   -- 45         print(...)
  , .skip           -- 46
  , .skip           -- 47 comment
  , .code 0 false   -- 48 print(f"\nLoading the model from: ...")
  , .code 0 false   -- 49 loaded_model = tf.saved_model.load(model_save_path)
  , .code 0 false   -- 50 print("Model loaded successfully.")
  , .skip           -- 51
  , .skip           -- 52 comment
  , .skip           -- 53 comment
  , .code 1 false   -- 54  dummy_input = np.random.rand(1, 5)...  (stray space)
  , .code 0 false   -- 55 print(f"Dummy input for prediction: ...")
  , .skip           -- 56 comment
  , .skip           -- 57 comment
  , .code 0 false   -- 58 predictions = loaded_model(dummy_input)
  , .code 0 false   -- 59 print(f"Predictions from loaded model: ...")
  , .skip           -- 60
  ]

/-- Hard-coded epoch count of the training call on line 25:
`model.fit(x_train, y_train, epochs=5, verbose=0)`. -/
def epochs : Nat := 5

/-- Hard-coded number of synthetic training samples on lines 20–21:
`np.random.rand(100, 5)` / `np.random.randint(0, 2, (100, 1))`. -/
def trainSamples : Nat := 100

/-- Hard-coded input dimension of the model (line 7, `input_shape=(5,)`,
and line 20). -/
def inputDim : Nat := 5

/-- Hard-coded hidden width of the first Dense layer (line 7). -/
def hiddenWidth : Nat := 10

/-- Hard-coded output path (line 29). -/
def savePath : String := "./simple_tf_model"

/-- Line number of the `tf.saved_model.save` call (line 34). -/
def saveLine : Nat := 34

/-- Line number of the training call `model.fit` (line 25). -/
def fitLine : Nat := 25

/-- Line number of the inference call `predictions = loaded_model(dummy_input)`
(line 58). -/
def inferenceLine : Nat := 58

end CreateAndSaveModel

namespace ParseOnnx

/-- Behaviour of `main` when fewer than two argv entries are present:
the usage branch is taken. -/
theorem main_usage (argv : List String) (fs : Fs) (h : argv.length < 2) :
    main argv fs =
      { stdout := [.line usageMessage], stderr := [], fileAccesses := [],
        outcome := .exited 0 } := by
  unfold main
  rw [if_pos h]

/-- Behaviour of `main` when the load of `sys.argv[1]` fails: the error
propagates uncaught and nothing is printed. -/
theorem main_err (argv : List String) (fs : Fs) (e : LoadError)
    (h1 : 2 ≤ argv.length) (h2 : fs (argv.getD 1 "") = .error e) :
    main argv fs =
      { stdout := [], stderr := [], fileAccesses := [argv.getD 1 ""],
        outcome := .raised e } := by
  unfold main
  rw [if_neg (by omega)]
  simp only [h2]

/-- Behaviour of `main` when the load of `sys.argv[1]` succeeds: the JSON
document for the model is printed and the process exits normally. -/
theorem main_ok (argv : List String) (fs : Fs) (m : OnnxModel)
    (h1 : 2 ≤ argv.length) (h2 : fs (argv.getD 1 "") = .ok m) :
    main argv fs =
      { stdout := [.jsonDoc (outputJson m)], stderr := [],
        fileAccesses := [argv.getD 1 ""], outcome := .exited 0 } := by
  unfold main
  rw [if_neg (by omega)]
  simp only [h2]

end ParseOnnx

/-- Claim C2 counterexample: on a concrete one-node model the dump utility
emits a layer record in which the key `weights` is present (bound to JSON
`null`), so the `weights` field is not absent from the JSON document. -/
theorem parseOnnx_weights_field_present :
    (ParseOnnx.main ["parse_onnx.py", "model.onnx"] ParseOnnx.fsCex).stdout
      = [ParseOnnx.Printed.jsonDoc (ParseOnnx.outputJson ParseOnnx.cexModel)] ∧
    (ParseOnnx.outputJson ParseOnnx.cexModel).lookup "layers"
      = some (ParseOnnx.Json.arr
          [ParseOnnx.layerJson { name := "n0", op_type := "Relu" }]) ∧
    (ParseOnnx.layerJson { name := "n0", op_type := "Relu" }).lookup "weights"
      = some ParseOnnx.Json.null :=
  ⟨rfl, rfl, rfl⟩

/-- Claim C2 (amended): for every model the dump utility processes, each
record in the emitted `layers` array has its `parameters` field equal to the
empty object and its `weights` field present with value JSON `null` (not
absent). -/
theorem parseOnnx_parameters_empty_weights_null (argv : List String)
    (fs : ParseOnnx.Fs) (m : ParseOnnx.OnnxModel)
    (h1 : 2 ≤ argv.length) (h2 : fs (argv.getD 1 "") = .ok m) :
    (ParseOnnx.main argv fs).stdout
      = [.jsonDoc (ParseOnnx.outputJson m)] ∧
    (ParseOnnx.outputJson m).lookup "layers"
      = some (.arr (m.graph.node.map ParseOnnx.layerJson)) ∧
    ∀ n : ParseOnnx.OnnxNode,
      (ParseOnnx.layerJson n).lookup "parameters" = some (.obj []) ∧
      (ParseOnnx.layerJson n).lookup "weights" = some .null := by
  refine ⟨?_, rfl, fun n => ⟨rfl, rfl⟩⟩
  rw [ParseOnnx.main_ok argv fs m h1 h2]

/-- Witness for the amended claim C2, at a concrete invocation. -/
theorem parseOnnx_parameters_empty_weights_null_witness :
    (ParseOnnx.main ["parse_onnx.py", "model.onnx"] ParseOnnx.fsCex).stdout
      = [.jsonDoc (ParseOnnx.outputJson ParseOnnx.cexModel)] ∧
    (ParseOnnx.outputJson ParseOnnx.cexModel).lookup "layers"
      = some (.arr (ParseOnnx.cexModel.graph.node.map ParseOnnx.layerJson)) ∧
    ∀ n : ParseOnnx.OnnxNode,
      (ParseOnnx.layerJson n).lookup "parameters" = some (.obj []) ∧
      (ParseOnnx.layerJson n).lookup "weights" = some .null :=
  parseOnnx_parameters_empty_weights_null _ _ _ (by decide) rfl

/-- Claim C3: for every valid model file, the emitted document's `layers`
array is the node list of the graph mapped to layer records, so its length
equals the number of nodes and the records appear in graph order; each
record's `name` and `type` are the node's name and operator type. -/
theorem parseOnnx_layers_match_graph_nodes (argv : List String)
    (fs : ParseOnnx.Fs) (m : ParseOnnx.OnnxModel)
    (h1 : 2 ≤ argv.length) (h2 : fs (argv.getD 1 "") = .ok m) :
    (ParseOnnx.main argv fs).stdout
      = [.jsonDoc (ParseOnnx.outputJson m)] ∧
    (ParseOnnx.outputJson m).lookup "layers"
      = some (.arr (m.graph.node.map ParseOnnx.layerJson)) ∧
    (m.graph.node.map ParseOnnx.layerJson).length = m.graph.node.length ∧
    ∀ n : ParseOnnx.OnnxNode,
      (ParseOnnx.layerJson n).lookup "name" = some (.str n.name) ∧
      (ParseOnnx.layerJson n).lookup "type" = some (.str n.op_type) := by
  refine ⟨?_, rfl, by simp, fun n => ⟨rfl, rfl⟩⟩
  rw [ParseOnnx.main_ok argv fs m h1 h2]

/-- Witness for claim C3, at a concrete invocation. -/
theorem parseOnnx_layers_match_graph_nodes_witness :
    (ParseOnnx.main ["parse_onnx.py", "model.onnx"] ParseOnnx.fsCex).stdout
      = [.jsonDoc (ParseOnnx.outputJson ParseOnnx.cexModel)] ∧
    (ParseOnnx.outputJson ParseOnnx.cexModel).lookup "layers"
      = some (.arr (ParseOnnx.cexModel.graph.node.map ParseOnnx.layerJson)) ∧
    (ParseOnnx.cexModel.graph.node.map ParseOnnx.layerJson).length
      = ParseOnnx.cexModel.graph.node.length ∧
    ∀ n : ParseOnnx.OnnxNode,
      (ParseOnnx.layerJson n).lookup "name" = some (.str n.name) ∧
      (ParseOnnx.layerJson n).lookup "type" = some (.str n.op_type) :=
  parseOnnx_layers_match_graph_nodes _ _ _ (by decide) rfl

/-- Claim C4: invoked with fewer than two argv entries, the utility prints
the usage message and accesses no file. -/
theorem parseOnnx_no_args_usage_no_file_access (argv : List String)
    (fs : ParseOnnx.Fs) (h : argv.length < 2) :
    (ParseOnnx.main argv fs).stdout = [.line ParseOnnx.usageMessage] ∧
    (ParseOnnx.main argv fs).fileAccesses = [] := by
  rw [ParseOnnx.main_usage argv fs h]
  exact ⟨rfl, rfl⟩

/-- Witness for claim C4: an argv holding only the script name. -/
theorem parseOnnx_no_args_usage_no_file_access_witness :
    (ParseOnnx.main ["parse_onnx.py"] ParseOnnx.fsMissing).stdout
      = [.line ParseOnnx.usageMessage] ∧
    (ParseOnnx.main ["parse_onnx.py"] ParseOnnx.fsMissing).fileAccesses = [] :=
  parseOnnx_no_args_usage_no_file_access _ _ (by decide)

/-- Claim C5: when the load of the given path fails, the failure propagates
uncaught out of `main` and no JSON document is printed. -/
theorem parseOnnx_load_error_propagates (argv : List String)
    (fs : ParseOnnx.Fs) (e : ParseOnnx.LoadError)
    (h1 : 2 ≤ argv.length) (h2 : fs (argv.getD 1 "") = .error e) :
    (ParseOnnx.main argv fs).outcome = .raised e ∧
    (ParseOnnx.main argv fs).stdout = [] := by
  rw [ParseOnnx.main_err argv fs e h1 h2]
  exact ⟨rfl, rfl⟩

/-- Witness for claim C5: a path missing from the filesystem oracle. -/
theorem parseOnnx_load_error_propagates_witness :
    (ParseOnnx.main ["parse_onnx.py", "missing.onnx"] ParseOnnx.fsMissing).outcome
      = .raised (.fileNotFound "missing.onnx") ∧
    (ParseOnnx.main ["parse_onnx.py", "missing.onnx"] ParseOnnx.fsMissing).stdout
      = [] :=
  parseOnnx_load_error_propagates _ _ _ (by decide) rfl

/-- Claim C6: the emitted document's `name` field is the graph name, its
`architecture` field is the model domain, and its `type` field is the
constant literal ONNX. -/
theorem parseOnnx_header_fields (argv : List String)
    (fs : ParseOnnx.Fs) (m : ParseOnnx.OnnxModel)
    (h1 : 2 ≤ argv.length) (h2 : fs (argv.getD 1 "") = .ok m) :
    (ParseOnnx.main argv fs).stdout
      = [.jsonDoc (ParseOnnx.outputJson m)] ∧
    (ParseOnnx.outputJson m).lookup "name" = some (.str m.graph.name) ∧
    (ParseOnnx.outputJson m).lookup "architecture" = some (.str m.domain) ∧
    (ParseOnnx.outputJson m).lookup "type" = some (.str "ONNX") := by
  refine ⟨?_, rfl, rfl, rfl⟩
  rw [ParseOnnx.main_ok argv fs m h1 h2]

/-- Witness for claim C6, at a concrete invocation. -/
theorem parseOnnx_header_fields_witness :
    (ParseOnnx.main ["parse_onnx.py", "model.onnx"] ParseOnnx.fsCex).stdout
      = [.jsonDoc (ParseOnnx.outputJson ParseOnnx.cexModel)] ∧
    (ParseOnnx.outputJson ParseOnnx.cexModel).lookup "name"
      = some (.str ParseOnnx.cexModel.graph.name) ∧
    (ParseOnnx.outputJson ParseOnnx.cexModel).lookup "architecture"
      = some (.str ParseOnnx.cexModel.domain) ∧
    (ParseOnnx.outputJson ParseOnnx.cexModel).lookup "type"
      = some (.str "ONNX") :=
  parseOnnx_header_fields _ _ _ (by decide) rfl

/-- Claim C9: the utility's whole observable run is determined by the entry
at index 1 of argv and the load result at that path; the script name and any
additional arguments are irrelevant. -/
theorem parseOnnx_output_depends_only_on_first_arg_and_file
    (argv1 argv2 : List String) (fs1 fs2 : ParseOnnx.Fs)
    (h1 : 2 ≤ argv1.length) (h2 : 2 ≤ argv2.length)
    (h3 : argv1.getD 1 "" = argv2.getD 1 "")
    (h4 : fs1 (argv1.getD 1 "") = fs2 (argv2.getD 1 "")) :
    ParseOnnx.main argv1 fs1 = ParseOnnx.main argv2 fs2 := by
  have h4s : fs2 (argv2.getD 1 "") = fs1 (argv1.getD 1 "") := h4.symm
  cases hr : fs1 (argv1.getD 1 "") with
  | error e =>
      rw [ParseOnnx.main_err argv1 fs1 e h1 hr,
        ParseOnnx.main_err argv2 fs2 e h2 (h4s.trans hr), h3]
  | ok m =>
      rw [ParseOnnx.main_ok argv1 fs1 m h1 hr,
        ParseOnnx.main_ok argv2 fs2 m h2 (h4s.trans hr), h3]

/-- Witness for claim C9: two invocations differing in script name and an
extra trailing argument produce the same run. -/
theorem parseOnnx_output_depends_only_on_first_arg_and_file_witness :
    ParseOnnx.main ["parse_onnx.py", "model.onnx"] ParseOnnx.fsCex
      = ParseOnnx.main ["other", "model.onnx", "--extra"] ParseOnnx.fsCex :=
  parseOnnx_output_depends_only_on_first_arg_and_file _ _ _ _
    (by decide) (by decide) rfl rfl

/-- Claim C10: with fewer than two argv entries, `main` returns normally,
the process exits with status 0, nothing goes to standard error, and the
usage message goes to standard output. -/
theorem parseOnnx_no_args_exit_zero (argv : List String)
    (fs : ParseOnnx.Fs) (h : argv.length < 2) :
    (ParseOnnx.main argv fs).outcome = .exited 0 ∧
    (ParseOnnx.main argv fs).stderr = [] ∧
    (ParseOnnx.main argv fs).stdout = [.line ParseOnnx.usageMessage] := by
  rw [ParseOnnx.main_usage argv fs h]
  exact ⟨rfl, rfl, rfl⟩

/-- Witness for claim C10: an empty argv. -/
theorem parseOnnx_no_args_exit_zero_witness :
    (ParseOnnx.main [] ParseOnnx.fsMissing).outcome = .exited 0 ∧
    (ParseOnnx.main [] ParseOnnx.fsMissing).stderr = [] ∧
    (ParseOnnx.main [] ParseOnnx.fsMissing).stdout
      = [.line ParseOnnx.usageMessage] :=
  parseOnnx_no_args_exit_zero _ _ (by decide)

/-- Claim C1: the build-train-save script fails CPython's block-structure
check at line 54 (a stray leading space), so module compilation aborts with
an IndentationError before any statement executes: no output directory is
produced, nothing is saved, reloaded or run. -/
theorem createAndSaveModel_indentation_error :
    CreateAndSaveModel.firstIndentError CreateAndSaveModel.lines = some 54 := by
  decide

/-- Claim C7: the module does not tokenize, so the inference call on line 58
never executes; the mathematical part of the claim does hold: the sigmoid
function used as the output activation maps every real input into [0, 1]. -/
theorem createAndSaveModel_inference_unreachable :
    CreateAndSaveModel.firstIndentError CreateAndSaveModel.lines ≠ none ∧
    ∀ x : ℝ, (1 + Real.exp (-x))⁻¹ ∈ Set.Icc (0 : ℝ) 1 := by
  constructor
  · decide
  · intro x
    have h : (1 : ℝ) ≤ 1 + Real.exp (-x) := by nlinarith [Real.exp_pos (-x)]
    exact Set.mem_Icc.mpr ⟨by positivity, inv_le_one_of_one_le₀ h⟩

/-- Claim C8: the script's training parameters are hard-coded (5 epochs,
100 synthetic samples of dimension 5, hidden width 10, fixed output path),
but the training call on line 25 never executes because module compilation
fails at line 54. -/
theorem createAndSaveModel_training_unreachable :
    CreateAndSaveModel.epochs = 5 ∧
    CreateAndSaveModel.trainSamples = 100 ∧
    CreateAndSaveModel.inputDim = 5 ∧
    CreateAndSaveModel.hiddenWidth = 10 ∧
    CreateAndSaveModel.savePath = "./simple_tf_model" ∧
    CreateAndSaveModel.firstIndentError CreateAndSaveModel.lines = some 54 :=
  ⟨rfl, rfl, rfl, rfl, rfl, by decide⟩
